import Mathlib

/-!
Shallow embedding of the connection/session registry, ticket store,
validators, broadcast engine and liveness monitor of `src/Backend.js`.

JavaScript runtime values that flow through the handlers are modelled by
`JSVal` (numbers as rationals, strings, booleans, `null`, `undefined`).
Each socket event handler becomes a pure function from the current server
state (the `connections` map, the `users` array and the `tickets` array)
to a new state together with the list of outbound socket emissions.
-/

/-- A JavaScript value as it can appear in an inbound payload field or in a
stored record: a number, a string, a boolean, `null` or `undefined`. -/
inductive JSVal where
  | num   (q : ℚ)
  | str   (s : String)
  | bool  (b : Bool)
  | null
  | undef
  deriving DecidableEq, Repr

/-- JavaScript truthiness of a `JSVal` (`0`, `""`, `false`, `null` and
`undefined` are falsy). -/
def truthy : JSVal → Bool
  | JSVal.num q  => !(q == 0)
  | JSVal.str s  => !(s == "")
  | JSVal.bool b => b
  | JSVal.null   => false
  | JSVal.undef  => false

/-- The JavaScript `a || b` default operator on values. -/
def jsOr (a b : JSVal) : JSVal :=
  if truthy a then a else b

/-- `typeof v === "number"`. -/
def JSVal.isNumber : JSVal → Bool
  | JSVal.num _ => true
  | _ => false

/-- `typeof v === "string"`. -/
def JSVal.isString : JSVal → Bool
  | JSVal.str _ => true
  | _ => false

/-- `v >= c` where a non-number compares false (reached in the source only
after a `typeof` number check). -/
def jsGe (v : JSVal) (c : ℚ) : Bool :=
  match v with
  | JSVal.num q => decide (c ≤ q)
  | _ => false

/-- `v <= c` where a non-number compares false. -/
def jsLe (v : JSVal) (c : ℚ) : Bool :=
  match v with
  | JSVal.num q => decide (q ≤ c)
  | _ => false

/-- The fields of a `user-location` payload that the handlers read.  A
missing or falsy-primitive payload is modelled as `Option.none` at the
call sites. -/
structure LocationData where
  lat   : JSVal
  lng   : JSVal
  role  : JSVal
  name  : JSVal
  image : JSVal
  deriving DecidableEq, Repr

/-- The fields of a `create-ticket` payload / stored ticket record. -/
structure TicketData where
  id          : JSVal
  lat         : JSVal
  lng         : JSVal
  message     : JSVal
  creatorId   : JSVal
  creatorName : JSVal
  deriving DecidableEq, Repr

/-- The fields of an `update-ticket` payload. -/
structure UpdateData where
  id      : JSVal
  message : JSVal
  deriving DecidableEq, Repr

/-- An entry of the `connections` map: per-connection tracking record.
Timestamps are milliseconds. -/
structure Conn where
  ip           : String
  connectedAt  : ℤ
  lastActivity : ℤ
  deriving DecidableEq, Repr

/-- An entry of the `users` array: one session's presence record. -/
structure User where
  id        : String
  lat       : JSVal
  lng       : JSVal
  isVisible : JSVal
  name      : JSVal
  role      : JSVal
  image     : JSVal
  deriving DecidableEq, Repr

/-- The mutable server state: the `connections` map (as an association
list in insertion order), the `users` array and the `tickets` array. -/
structure ServerState where
  connections : List (String × Conn)
  users       : List User
  tickets     : List TicketData
  deriving DecidableEq, Repr

/-- An outbound socket emission produced by a handler. -/
inductive OutMsg where
  | errorToCaller     (msg : String)
  | nearbyUsersAll    (us : List User)
  | nearbyUsersCaller (us : List User)
  | allTicketsAll     (ts : List TicketData)
  | allTicketsCaller  (ts : List TicketData)
  | newTicketAll      (t : TicketData)
  | ticketUpdatedAll  (t : TicketData)
  | disconnectConn    (id : String)
  deriving DecidableEq, Repr

/-- `validateLocationData` of `src/Backend.js`: payload truthy, `lat` and
`lng` numbers, `role` a string, `lat` in `[-90, 90]`, `lng` in
`[-180, 180]`. -/
def validateLocationData : Option LocationData → Bool
  | none => false
  | some data =>
      data.lat.isNumber && data.lng.isNumber && data.role.isString &&
      jsGe data.lat (-90) && jsLe data.lat 90 &&
      jsGe data.lng (-180) && jsLe data.lng 180

/-- `validateTicket` of `src/Backend.js`: payload truthy and the six
fields type-checked. -/
def validateTicket : Option TicketData → Bool
  | none => false
  | some ticket =>
      ticket.id.isString && ticket.lat.isNumber && ticket.lng.isNumber &&
      ticket.message.isString && ticket.creatorId.isString &&
      ticket.creatorName.isString

/-- `getValidUsers` of `src/Backend.js`: keep users whose `isVisible` is
truthy and whose `lat`, `lng`, `name`, `role`, `image` are all `!== null`. -/
def getValidUsers (users : List User) : List User :=
  users.filter (fun user =>
    truthy user.isVisible &&
    !(user.lat == JSVal.null) &&
    !(user.lng == JSVal.null) &&
    !(user.name == JSVal.null) &&
    !(user.role == JSVal.null) &&
    !(user.image == JSVal.null))

/-- Mutate the first element satisfying `p` in place, as
`array.find(...)` followed by field assignments does. -/
def updateFirst (p : α → Bool) (f : α → α) : List α → List α
  | [] => []
  | x :: xs => if p x then f x :: xs else x :: updateFirst p f xs

/-- `connections.get(clientId).lastActivity = now`: update the tracking
record stored under `clientId` (the source assumes the entry exists
whenever the corresponding user record does). -/
def setLastActivity (cid : String) (now : ℤ) (conns : List (String × Conn)) :
    List (String × Conn) :=
  conns.map (fun p => if p.1 == cid then (p.1, { p.2 with lastActivity := now }) else p)

/-- The `user-location` handler: reject with an `error` emission when
`validateLocationData` fails (a missing payload also fails it); otherwise,
when a user record for this connection exists, overwrite `lat`, `lng`,
`role`, default `name` through `|| "Anonymous"` and `image` through
`|| ""`, force `isVisible` to `true`, refresh the connection's
`lastActivity` to `now`, and broadcast `getValidUsers`. -/
def userLocationHandler (cid : String) (now : ℤ) (d : Option LocationData)
    (s : ServerState) : ServerState × List OutMsg :=
  match d with
  | none => (s, [OutMsg.errorToCaller "Invalid location data"])
  | some data =>
      if validateLocationData (some data) = false then
        (s, [OutMsg.errorToCaller "Invalid location data"])
      else
        match s.users.find? (fun u => u.id == cid) with
        | none => (s, [])
        | some _ =>
            let users' := updateFirst (fun u => u.id == cid)
              (fun u => { u with
                  lat := data.lat, lng := data.lng, role := data.role,
                  name := jsOr data.name (JSVal.str "Anonymous"),
                  isVisible := JSVal.bool true,
                  image := jsOr data.image (JSVal.str "") }) s.users
            ({ s with users := users',
                      connections := setLastActivity cid now s.connections },
             [OutMsg.nearbyUsersAll (getValidUsers users')])

/-- The `visibility-change` handler: when a user record exists, store the
raw payload into `isVisible` and broadcast; otherwise do nothing. -/
def visibilityChangeHandler (cid : String) (v : JSVal) (s : ServerState) :
    ServerState × List OutMsg :=
  match s.users.find? (fun u => u.id == cid) with
  | none => (s, [])
  | some _ =>
      let users' := updateFirst (fun u => u.id == cid)
        (fun u => { u with isVisible := v }) s.users
      ({ s with users := users' }, [OutMsg.nearbyUsersAll (getValidUsers users')])

/-- The `create-ticket` handler: on a valid payload, push the ticket
unchanged and emit `new-ticket` then `all-tickets`; otherwise emit an
`error` to the caller.  The caller's connection id is never consulted. -/
def createTicketHandler (cid : String) (d : Option TicketData) (s : ServerState) :
    ServerState × List OutMsg :=
  if validateTicket d then
    match d with
    | some ticket =>
        ({ s with tickets := s.tickets ++ [ticket] },
         [OutMsg.newTicketAll ticket, OutMsg.allTicketsAll (s.tickets ++ [ticket])])
    | none => (s, [])
  else
    (s, [OutMsg.errorToCaller "Invalid ticket data"])

/-- The `request-tickets` handler: reply to the requester with the full
ticket array. -/
def requestTicketsHandler (s : ServerState) : ServerState × List OutMsg :=
  (s, [OutMsg.allTicketsCaller s.tickets])

/-- The `request-users` handler: reply to the requester with the filtered
user snapshot. -/
def requestUsersHandler (s : ServerState) : ServerState × List OutMsg :=
  (s, [OutMsg.nearbyUsersCaller (getValidUsers s.users)])

/-- The `disconnect` handler: drop the user record and the connection
tracking entry for this id and broadcast. -/
def disconnectHandler (cid : String) (s : ServerState) : ServerState × List OutMsg :=
  let users' := s.users.filter (fun u => u.id != cid)
  ({ s with users := users',
            connections := s.connections.filter (fun p => p.1 != cid) },
   [OutMsg.nearbyUsersAll (getValidUsers users')])

/-- Resolve a JavaScript value used as an array subscript to an element
index: a non-negative integral number, or a string that is the canonical
decimal representation of such an index; anything else (for instance a
ticket-id string such as `"t1"`) reads `undefined`. -/
def jsToArrayIndex : JSVal → Option Nat
  | JSVal.num q => if q.den = 1 ∧ 0 ≤ q.num then some q.num.toNat else none
  | JSVal.str s =>
      if s.data ≠ [] ∧ s.data.all Char.isDigit then
        let n := s.data.foldl (fun acc c => acc * 10 + (c.toNat - 48)) 0
        if toString n = s then some n else none
      else none
  | _ => none

/-- The `update-ticket` handler of `src/Backend.js`: look up
`tickets[data.id]` — an array subscript, not a search by ticket id — and,
when the element exists and its `creatorId` strictly equals the caller's
socket id, overwrite its `message` and emit `ticket-updated`; in every
other case do nothing (no error emission). -/
def updateTicketHandler (cid : String) (d : UpdateData) (s : ServerState) :
    ServerState × List OutMsg :=
  match jsToArrayIndex d.id with
  | none => (s, [])
  | some n =>
      match s.tickets[n]? with
      | none => (s, [])
      | some t =>
          if t.creatorId == JSVal.str cid then
            ({ s with tickets := s.tickets.set n { t with message := d.message } },
             [OutMsg.ticketUpdatedAll { t with message := d.message }])
          else
            (s, [])

/-- One entry of the liveness sweep: when `now - lastActivity` exceeds
300000 ms, force-disconnect the transport, delete the connection entry,
drop the user record and broadcast the recomputed snapshot. -/
def monitorStep (now : ℤ) (acc : ServerState × List OutMsg) (entry : String × Conn) :
    ServerState × List OutMsg :=
  if 300000 < now - entry.2.lastActivity then
    let users' := acc.1.users.filter (fun u => u.id != entry.1)
    ({ acc.1 with
        connections := acc.1.connections.filter (fun p => p.1 != entry.1),
        users := users' },
     acc.2 ++ [OutMsg.disconnectConn entry.1,
               OutMsg.nearbyUsersAll (getValidUsers users')])
  else
    acc

/-- One tick of the connection monitor interval: sweep the connection
entries in insertion order (only the entry currently visited is ever
deleted, so iterating the original list matches the `Map.forEach`
semantics of the source). -/
def monitorTick (now : ℤ) (s : ServerState) : ServerState × List OutMsg :=
  s.connections.foldl (monitorStep now) (s, [])

/-- Location-payload validity as the specification words it: present,
`lat`/`lng` numeric and in range, and `role` a *non-empty* string.  Stated
for comparison against `validateLocationData`. -/
def claimLocationValid : Option LocationData → Bool
  | none => false
  | some data =>
      data.lat.isNumber && data.lng.isNumber &&
      jsGe data.lat (-90) && jsLe data.lat 90 &&
      jsGe data.lng (-180) && jsLe data.lng 180 &&
      (match data.role with
       | JSVal.str r => r != ""
       | _ => false)

/-- The snapshot filter as the specification words it: `isVisible` true,
coordinates non-null, and `name`, `role`, `image` each non-null *and
non-empty*.  Stated for comparison against `getValidUsers`. -/
def claimSnapshotFilter (u : User) : Bool :=
  truthy u.isVisible &&
  !(u.lat == JSVal.null) && !(u.lng == JSVal.null) &&
  !(u.name == JSVal.null) && !(u.name == JSVal.str "") &&
  !(u.role == JSVal.null) && !(u.role == JSVal.str "") &&
  !(u.image == JSVal.null) && !(u.image == JSVal.str "")

/-- C4 (counterexample): the payload `{lat: 0, lng: 0, role: ""}` is
accepted by `validateLocationData` — `typeof "" === "string"` holds — while
the claim requires a non-empty `role` and so predicts rejection. -/
theorem validateLocationData_accepts_empty_role :
    validateLocationData
        (some ⟨JSVal.num 0, JSVal.num 0, JSVal.str "", JSVal.undef, JSVal.undef⟩) = true ∧
    claimLocationValid
        (some ⟨JSVal.num 0, JSVal.num 0, JSVal.str "", JSVal.undef, JSVal.undef⟩) = false := by
  decide

theorem JSVal.isNumber_iff {v : JSVal} : v.isNumber = true ↔ ∃ q, v = JSVal.num q := by
  cases v <;> simp [JSVal.isNumber]

theorem JSVal.isString_iff {v : JSVal} : v.isString = true ↔ ∃ r, v = JSVal.str r := by
  cases v <;> simp [JSVal.isString]

theorem jsGe_num {q c : ℚ} : jsGe (JSVal.num q) c = true ↔ c ≤ q := by
  simp [jsGe]

theorem jsLe_num {q c : ℚ} : jsLe (JSVal.num q) c = true ↔ q ≤ c := by
  simp [jsLe]

/-- C4 (amended): `validateLocationData` accepts a payload iff it is
present, `lat` and `lng` are numbers within `[-90, 90]` and `[-180, 180]`
respectively, and `role` is a string — the empty string included. -/
theorem validateLocationData_iff (d : Option LocationData) :
    validateLocationData d = true ↔
      ∃ data, d = some data ∧
        (∃ la : ℚ, data.lat = JSVal.num la ∧ -90 ≤ la ∧ la ≤ 90) ∧
        (∃ ln : ℚ, data.lng = JSVal.num ln ∧ -180 ≤ ln ∧ ln ≤ 180) ∧
        (∃ r : String, data.role = JSVal.str r) := by
  cases d with
  | none => simp [validateLocationData]
  | some data =>
      simp only [validateLocationData, Bool.and_eq_true, Option.some.injEq]
      constructor
      · rintro ⟨⟨⟨⟨⟨⟨h1, h2⟩, h3⟩, h4⟩, h5⟩, h6⟩, h7⟩
        obtain ⟨la, hla⟩ := JSVal.isNumber_iff.mp h1
        obtain ⟨ln, hln⟩ := JSVal.isNumber_iff.mp h2
        obtain ⟨r, hr⟩ := JSVal.isString_iff.mp h3
        rw [hla] at h4 h5
        rw [hln] at h6 h7
        exact ⟨data, rfl, ⟨la, hla, jsGe_num.mp h4, jsLe_num.mp h5⟩,
          ⟨ln, hln, jsGe_num.mp h6, jsLe_num.mp h7⟩, ⟨r, hr⟩⟩
      · rintro ⟨data2, heq, ⟨la, hla, hla1, hla2⟩, ⟨ln, hln, hln1, hln2⟩, ⟨r, hr⟩⟩
        subst heq
        rw [hla, hln, hr]
        simp [JSVal.isNumber, JSVal.isString, jsGe, jsLe, hla1, hla2, hln1, hln2]

/-- C3 (counterexample): a visible located session whose `image` is the
empty string is returned by `getValidUsers` (`"" !== null`), while the
claim's filter — which demands non-empty `name`, `role` and `image` —
excludes it. -/
theorem getValidUsers_includes_empty_image :
    getValidUsers [⟨"u", JSVal.num 1, JSVal.num 1, JSVal.bool true,
        JSVal.str "Anonymous", JSVal.str "user", JSVal.str ""⟩] =
      [⟨"u", JSVal.num 1, JSVal.num 1, JSVal.bool true,
        JSVal.str "Anonymous", JSVal.str "user", JSVal.str ""⟩] ∧
    claimSnapshotFilter ⟨"u", JSVal.num 1, JSVal.num 1, JSVal.bool true,
        JSVal.str "Anonymous", JSVal.str "user", JSVal.str ""⟩ = false := by
  decide

/-- C3 (amended): `getValidUsers` returns exactly the sessions with truthy
`isVisible` and with `lat`, `lng`, `name`, `role`, `image` all non-null;
empty strings pass the filter. -/
theorem getValidUsers_mem_iff (us : List User) (u : User) :
    u ∈ getValidUsers us ↔
      u ∈ us ∧ truthy u.isVisible = true ∧
        u.lat ≠ JSVal.null ∧ u.lng ≠ JSVal.null ∧
        u.name ≠ JSVal.null ∧ u.role ≠ JSVal.null ∧ u.image ≠ JSVal.null := by
  simp [getValidUsers, List.mem_filter, and_assoc]

/-- C8: a location payload rejected by `validateLocationData` produces
exactly one `error` emission to the triggering connection, leaves the
whole state unchanged — so the snapshot is unchanged — and performs no
broadcast. -/
theorem userLocation_invalid_rejected_state_unchanged (cid : String) (now : ℤ)
    (d : Option LocationData) (s : ServerState)
    (h : validateLocationData d = false) :
    userLocationHandler cid now d s =
      (s, [OutMsg.errorToCaller "Invalid location data"]) ∧
    getValidUsers (userLocationHandler cid now d s).1.users = getValidUsers s.users := by
  cases d with
  | none => exact ⟨rfl, rfl⟩
  | some data =>
      have h1 : userLocationHandler cid now (some data) s =
          (s, [OutMsg.errorToCaller "Invalid location data"]) := by
        simp [userLocationHandler, h]
      exact ⟨h1, by rw [h1]⟩

/-- C8 (witness): the empty payload is rejected and the state survives
untouched. -/
theorem userLocation_invalid_rejected_witness :
    userLocationHandler "A" 5 none (⟨[], [], []⟩ : ServerState) =
      ((⟨[], [], []⟩ : ServerState), [OutMsg.errorToCaller "Invalid location data"]) :=
  (userLocation_invalid_rejected_state_unchanged "A" 5 none
    (⟨[], [], []⟩ : ServerState) (by decide)).1

/-- Example ticket for the duplicate-creation scenario of the ticket
store: valid, with id `"t1"`. -/
def dupTicket : TicketData :=
  ⟨JSVal.str "t1", JSVal.num 1, JSVal.num 2, JSVal.str "help",
    JSVal.str "A", JSVal.str "Ann"⟩

/-- C2 (counterexample): creating the same valid ticket twice appends it
twice — `tickets.push` never checks for an existing id — so `all()`
contains two tickets with id `"t1"`. -/
theorem createTicket_duplicate_id_duplicates :
    validateTicket (some dupTicket) = true ∧
    ((createTicketHandler "B" (some dupTicket)
        (createTicketHandler "A" (some dupTicket)
          (⟨[], [], []⟩ : ServerState)).1).1.tickets.map (fun t => t.id)) =
      [JSVal.str "t1", JSVal.str "t1"] := by
  decide

/-- C2 (amended): `create-ticket` with a valid payload appends the ticket
unconditionally — it neither rejects a duplicate id nor overwrites the
existing ticket — so `all()` can contain two tickets with the same id. -/
theorem createTicket_appends_allowing_duplicate_ids (s : ServerState) (cid : String)
    (t t₀ : TicketData) (hv : validateTicket (some t) = true)
    (h0 : t₀ ∈ s.tickets) (hid : t₀.id = t.id) :
    (createTicketHandler cid (some t) s).1.tickets = s.tickets ++ [t] ∧
    2 ≤ (createTicketHandler cid (some t) s).1.tickets.countP
          (fun x => x.id == t.id) := by
  have happ : (createTicketHandler cid (some t) s).1.tickets = s.tickets ++ [t] := by
    simp [createTicketHandler, hv]
  refine ⟨happ, ?_⟩
  rw [happ, List.countP_append]
  have h1 : 0 < s.tickets.countP (fun x => x.id == t.id) :=
    List.countP_pos_iff.mpr ⟨t₀, h0, by simp [hid]⟩
  have h2 : List.countP (fun x => x.id == t.id) [t] = 1 := by simp
  omega

/-- C2 (witness): recreating `dupTicket` over a store already holding it
yields a two-element store in which its id occurs twice. -/
theorem createTicket_appends_witness :
    (createTicketHandler "B" (some dupTicket)
        (⟨[], [], [dupTicket]⟩ : ServerState)).1.tickets = [dupTicket] ++ [dupTicket] ∧
    2 ≤ (createTicketHandler "B" (some dupTicket)
          (⟨[], [], [dupTicket]⟩ : ServerState)).1.tickets.countP
            (fun x => x.id == dupTicket.id) :=
  createTicket_appends_allowing_duplicate_ids
    (⟨[], [], [dupTicket]⟩ : ServerState) "B" dupTicket dupTicket
    (by decide) (by decide) rfl

/-- C10: `create-ticket` never checks the caller's identity — the stored
`creatorId` and `creatorName` are the caller-supplied values, and the
result is identical whichever connection sends the payload — while
`update-ticket` emits `ticket-updated` only for a ticket whose `creatorId`
equals the requester's connection id. -/
theorem createTicket_ignores_caller_identity (cid : String) (t : TicketData)
    (s : ServerState) (hv : validateTicket (some t) = true) :
    createTicketHandler cid (some t) s =
      ({ s with tickets := s.tickets ++ [t] },
       [OutMsg.newTicketAll t, OutMsg.allTicketsAll (s.tickets ++ [t])]) ∧
    (∀ cid2, createTicketHandler cid2 (some t) s = createTicketHandler cid (some t) s) ∧
    (∀ d t2, OutMsg.ticketUpdatedAll t2 ∈ (updateTicketHandler cid d s).2 →
      t2.creatorId = JSVal.str cid) := by
  refine ⟨by simp [createTicketHandler, hv], fun cid2 => rfl, ?_⟩
  intro d t2 hmem
  cases hidx : jsToArrayIndex d.id with
  | none => simp [updateTicketHandler, hidx] at hmem
  | some n =>
      cases hget : s.tickets[n]? with
      | none => simp [updateTicketHandler, hidx, hget] at hmem
      | some t3 =>
          by_cases hc : t3.creatorId = JSVal.str cid
          · simp [updateTicketHandler, hidx, hget, hc] at hmem
            rw [hmem]
          · simp [updateTicketHandler, hidx, hget, hc] at hmem

/-- C10 (witness): any connection (`"X"`) may create `dupTicket`, whose
`creatorId` is `"A"`, and the stored record keeps the spoofed creator. -/
theorem createTicket_ignores_caller_identity_witness :
    createTicketHandler "X" (some dupTicket) (⟨[], [], []⟩ : ServerState) =
      ({ (⟨[], [], []⟩ : ServerState) with
          tickets := ([] : List TicketData) ++ [dupTicket] },
       [OutMsg.newTicketAll dupTicket,
        OutMsg.allTicketsAll (([] : List TicketData) ++ [dupTicket])]) :=
  (createTicket_ignores_caller_identity "X" dupTicket
    (⟨[], [], []⟩ : ServerState) (by decide)).1

/-- Example state for the activity-tracking scenarios: one connection
`"A"` whose `lastActivity` is 0, with its default user record. -/
def exActState : ServerState :=
  ⟨[("A", ⟨"ip", 0, 0⟩)],
   [⟨"A", JSVal.null, JSVal.null, JSVal.bool true, JSVal.str "Anonymous",
     JSVal.str "user", JSVal.str ""⟩], []⟩

/-- C5 (counterexample): an accepted `visibility-change` — the user record
exists and a broadcast is emitted — leaves the connection's `lastActivity`
exactly as it was (here 0): only `user-location` refreshes it. -/
theorem visibilityChange_does_not_refresh_lastActivity :
    (visibilityChangeHandler "A" (JSVal.bool true) exActState).2 ≠ [] ∧
    (visibilityChangeHandler "A" (JSVal.bool true) exActState).1.connections =
      [("A", ⟨"ip", 0, 0⟩)] := by
  decide

/-- C5 (amended): only the `user-location` handler refreshes
`lastActivity`; `visibility-change`, `create-ticket`, `request-tickets`,
`request-users` and `update-ticket` leave the `connections` map — and so
every `lastActivity` timestamp — unchanged. -/
theorem nonLocation_handlers_preserve_connections (cid : String) (v : JSVal)
    (td : Option TicketData) (ud : UpdateData) (s : ServerState) :
    (visibilityChangeHandler cid v s).1.connections = s.connections ∧
    (createTicketHandler cid td s).1.connections = s.connections ∧
    (requestTicketsHandler s).1.connections = s.connections ∧
    (requestUsersHandler s).1.connections = s.connections ∧
    (updateTicketHandler cid ud s).1.connections = s.connections := by
  refine ⟨?_, ?_, rfl, rfl, ?_⟩
  · cases hf : s.users.find? (fun u => u.id == cid) <;>
      simp [visibilityChangeHandler, hf]
  · cases td with
    | none => simp [createTicketHandler, validateTicket]
    | some t =>
        by_cases hv : validateTicket (some t) = true <;>
          simp [createTicketHandler, hv]
  · cases hidx : jsToArrayIndex ud.id with
    | none => simp [updateTicketHandler, hidx]
    | some n =>
        cases hget : s.tickets[n]? with
        | none => simp [updateTicketHandler, hidx, hget]
        | some t =>
            by_cases hc : t.creatorId = JSVal.str cid <;>
              simp [updateTicketHandler, hidx, hget, hc]

/-- The stored ticket of the update scenario: id `"t1"`, created by
connection `"A"`. -/
def exTicketT1 : TicketData :=
  ⟨JSVal.str "t1", JSVal.num 1, JSVal.num 2, JSVal.str "old",
    JSVal.str "A", JSVal.str "Ann"⟩

/-- Server state whose ticket store holds exactly `exTicketT1`. -/
def exStateT1 : ServerState := ⟨[], [], [exTicketT1]⟩

/-- C1 (counterexample): the creator `"A"` of the stored ticket with id
`"t1"` sends `update-ticket {id: "t1", message: "new"}`; because the
handler subscripts the tickets *array* with `"t1"` instead of searching by
ticket id, the update silently does nothing — the store is unchanged, no
`ticket-updated` is emitted, and no `Unauthorized`/`NotFound` signal
exists in the handler at all. -/
theorem updateTicket_byId_request_silently_ignored :
    exTicketT1.id = JSVal.str "t1" ∧ exTicketT1.creatorId = JSVal.str "A" ∧
    exTicketT1 ∈ exStateT1.tickets ∧
    updateTicketHandler "A" ⟨JSVal.str "t1", JSVal.str "new"⟩ exStateT1 =
      (exStateT1, []) := by
  decide

/-- C1 (amended): `update-ticket` resolves `data.id` as an array subscript
into `tickets`.  The update succeeds — message overwritten and
`ticket-updated` emitted with the updated ticket — iff that subscript
resolves to an element whose `creatorId` equals the requester's connection
id; in every other case (id that is not an array index, out-of-range
index, or a requester who is not the creator) the request is silently
ignored: the store is unchanged and nothing, in particular no
`Unauthorized` or `NotFound`, is emitted. -/
theorem updateTicket_characterization (cid : String) (d : UpdateData) (s : ServerState) :
    (∀ n t, jsToArrayIndex d.id = some n → s.tickets[n]? = some t →
        t.creatorId = JSVal.str cid →
        updateTicketHandler cid d s =
          ({ s with tickets := s.tickets.set n { t with message := d.message } },
           [OutMsg.ticketUpdatedAll { t with message := d.message }])) ∧
    ((∀ n t, jsToArrayIndex d.id = some n → s.tickets[n]? = some t →
        t.creatorId ≠ JSVal.str cid) →
      updateTicketHandler cid d s = (s, [])) := by
  constructor
  · intro n t hidx hget hc
    simp [updateTicketHandler, hidx, hget, hc]
  · intro h
    cases hidx : jsToArrayIndex d.id with
    | none => simp [updateTicketHandler, hidx]
    | some n =>
        cases hget : s.tickets[n]? with
        | none => simp [updateTicketHandler, hidx, hget]
        | some t =>
            have hc := h n t hidx hget
            simp [updateTicketHandler, hidx, hget, hc]

/-- C1 (witness): addressed by its array position `0`, the same stored
ticket *is* updated by its creator: message overwritten and
`ticket-updated` emitted. -/
theorem updateTicket_characterization_witness :
    updateTicketHandler "A" ⟨JSVal.num 0, JSVal.str "new"⟩ exStateT1 =
      ({ exStateT1 with
          tickets := exStateT1.tickets.set 0 { exTicketT1 with message := JSVal.str "new" } },
       [OutMsg.ticketUpdatedAll { exTicketT1 with message := JSVal.str "new" }]) :=
  (updateTicket_characterization "A" ⟨JSVal.num 0, JSVal.str "new"⟩ exStateT1).1
    0 exTicketT1 (by decide) (by decide) (by decide)

/-- C9: `disconnect` removes the session: after `close(id)` the snapshot
never contains `id` whatever its prior visibility; closing the same id a
second time leaves the state reached by the first close; and closing an id
that has no user record and no connection entry changes nothing. -/
theorem disconnect_removes_and_idempotent (cid : String) (s : ServerState) :
    (∀ u ∈ getValidUsers ((disconnectHandler cid s).1).users, u.id ≠ cid) ∧
    (disconnectHandler cid ((disconnectHandler cid s).1)).1 = (disconnectHandler cid s).1 ∧
    ((∀ u ∈ s.users, u.id ≠ cid) → (∀ p ∈ s.connections, p.1 ≠ cid) →
      (disconnectHandler cid s).1 = s) := by
  refine ⟨?_, ?_, ?_⟩
  · intro u hu
    have hu2 : u ∈ s.users.filter (fun x => x.id != cid) :=
      List.mem_of_mem_filter hu
    have := (List.mem_filter.mp hu2).2
    simpa using this
  · simp [disconnectHandler, List.filter_filter]
  · intro hu hc
    have h1 : s.users.filter (fun u => u.id != cid) = s.users :=
      List.filter_eq_self.mpr (fun u hmem => by simpa using hu u hmem)
    have h2 : s.connections.filter (fun p => p.1 != cid) = s.connections :=
      List.filter_eq_self.mpr (fun p hmem => by simpa using hc p hmem)
    simp [disconnectHandler, h1, h2]

/-- C9 (witness): closing `"Z"`, which has neither a user record nor a
connection entry, is a no-op on the state. -/
theorem disconnect_noop_witness :
    (disconnectHandler "Z" exActState).1 = exActState :=
  (disconnect_removes_and_idempotent "Z" exActState).2.2 (by decide) (by decide)

theorem updateFirst_mem {α : Type} {p : α → Bool} {f : α → α} {l : List α} {a : α}
    (h : l.find? p = some a) : f a ∈ updateFirst p f l := by
  induction l with
  | nil => simp at h
  | cons x xs ih =>
      by_cases hp : p x = true
      · rw [List.find?_cons_of_pos _ hp] at h
        injection h with h
        subst h
        simp [updateFirst, hp]
      · rw [List.find?_cons_of_neg _ hp] at h
        simp only [updateFirst]
        rw [if_neg hp]
        exact List.mem_cons_of_mem _ (ih h)

theorem isNumber_beq_null {v : JSVal} (h : v.isNumber = true) :
    (v == JSVal.null) = false := by
  cases v <;> simp_all [JSVal.isNumber]

theorem isString_beq_null {v : JSVal} (h : v.isString = true) :
    (v == JSVal.null) = false := by
  cases v <;> simp_all [JSVal.isString]

theorem jsOr_str_beq_null (v : JSVal) (d : String) :
    (jsOr v (JSVal.str d) == JSVal.null) = false := by
  unfold jsOr
  split
  · next h => cases v <;> simp_all [truthy]
  · simp

/-- Example state for the location-update scenarios: connection `"A"`
with `lastActivity` 0 and its freshly initialized user record. -/
def exC7User : User :=
  ⟨"A", JSVal.null, JSVal.null, JSVal.bool true, JSVal.str "Anonymous",
    JSVal.str "user", JSVal.str ""⟩

/-- Server state holding exactly the connection and user of `exC7User`. -/
def exC7State : ServerState := ⟨[("A", ⟨"ip", 0, 0⟩)], [exC7User], []⟩

/-- C7 (counterexample): the payload `{lat: 1, lng: 2, role: "user",
name: "", image: "img"}` passes the validator, but the stored session's
`name` becomes `"Anonymous"` — not the submitted empty string — because
the handler assigns `data.name || "Anonymous"`; so no snapshot session
carries exactly the submitted `name`. -/
theorem userLocation_empty_name_stored_as_Anonymous :
    validateLocationData (some ⟨JSVal.num 1, JSVal.num 2, JSVal.str "user",
        JSVal.str "", JSVal.str "img"⟩) = true ∧
    ((userLocationHandler "A" 7 (some ⟨JSVal.num 1, JSVal.num 2, JSVal.str "user",
        JSVal.str "", JSVal.str "img"⟩) exC7State).1.users.map (fun u => u.name)) =
      [JSVal.str "Anonymous"] := by
  decide

/-- C7 (amended): on a validator-accepted payload for an existing session,
`user-location` overwrites `lat`, `lng`, `role`, stores
`name || "Anonymous"` and `image || ""` (so a falsy submitted `name` or
`image` is replaced by the default rather than kept), forces
`isVisible = true`, refreshes that connection's `lastActivity` to the
arrival time, emits one broadcast, and the updated session is in the
`getValidUsers` snapshot. -/
theorem userLocation_valid_update (cid : String) (now : ℤ) (data : LocationData)
    (s : ServerState) (u : User)
    (hv : validateLocationData (some data) = true)
    (hf : s.users.find? (fun x => x.id == cid) = some u) :
    userLocationHandler cid now (some data) s =
      ({ s with
          users := updateFirst (fun x => x.id == cid)
            (fun x => { x with
                lat := data.lat, lng := data.lng, role := data.role,
                name := jsOr data.name (JSVal.str "Anonymous"),
                isVisible := JSVal.bool true,
                image := jsOr data.image (JSVal.str "") }) s.users,
          connections := setLastActivity cid now s.connections },
       [OutMsg.nearbyUsersAll (getValidUsers (updateFirst (fun x => x.id == cid)
          (fun x => { x with
              lat := data.lat, lng := data.lng, role := data.role,
              name := jsOr data.name (JSVal.str "Anonymous"),
              isVisible := JSVal.bool true,
              image := jsOr data.image (JSVal.str "") }) s.users))]) ∧
    { u with
        lat := data.lat, lng := data.lng, role := data.role,
        name := jsOr data.name (JSVal.str "Anonymous"),
        isVisible := JSVal.bool true,
        image := jsOr data.image (JSVal.str "") } ∈
      getValidUsers (userLocationHandler cid now (some data) s).1.users := by
  have hmain : userLocationHandler cid now (some data) s =
      ({ s with
          users := updateFirst (fun x => x.id == cid)
            (fun x => { x with
                lat := data.lat, lng := data.lng, role := data.role,
                name := jsOr data.name (JSVal.str "Anonymous"),
                isVisible := JSVal.bool true,
                image := jsOr data.image (JSVal.str "") }) s.users,
          connections := setLastActivity cid now s.connections },
       [OutMsg.nearbyUsersAll (getValidUsers (updateFirst (fun x => x.id == cid)
          (fun x => { x with
              lat := data.lat, lng := data.lng, role := data.role,
              name := jsOr data.name (JSVal.str "Anonymous"),
              isVisible := JSVal.bool true,
              image := jsOr data.image (JSVal.str "") }) s.users))]) := by
    simp [userLocationHandler, hv, hf]
  refine ⟨hmain, ?_⟩
  rw [hmain]
  apply List.mem_filter.mpr
  constructor
  · exact updateFirst_mem hf
  · simp only [validateLocationData, Bool.and_eq_true] at hv
    obtain ⟨⟨⟨⟨⟨⟨h1, h2⟩, h3⟩, _⟩, _⟩, _⟩, _⟩ := hv
    simp [truthy, isNumber_beq_null h1, isNumber_beq_null h2,
      isString_beq_null h3, jsOr_str_beq_null]

/-- C7 (witness): the valid payload `{lat: 1, lng: 2, role: "user",
name: "Ann", image: "img"}` lands in the snapshot with the submitted
fields. -/
theorem userLocation_valid_update_witness :
    { exC7User with
        lat := JSVal.num 1, lng := JSVal.num 2, role := JSVal.str "user",
        name := jsOr (JSVal.str "Ann") (JSVal.str "Anonymous"),
        isVisible := JSVal.bool true,
        image := jsOr (JSVal.str "img") (JSVal.str "") } ∈
      getValidUsers (userLocationHandler "A" 7
        (some ⟨JSVal.num 1, JSVal.num 2, JSVal.str "user", JSVal.str "Ann",
          JSVal.str "img"⟩) exC7State).1.users :=
  (userLocation_valid_update "A" 7
    ⟨JSVal.num 1, JSVal.num 2, JSVal.str "user", JSVal.str "Ann", JSVal.str "img"⟩
    exC7State exC7User (by decide) (by decide)).2

theorem monitor_out_mono {now : ℤ} {m : OutMsg} :
    ∀ (l : List (String × Conn)) (acc : ServerState × List OutMsg),
      m ∈ acc.2 → m ∈ (l.foldl (monitorStep now) acc).2 := by
  intro l
  induction l with
  | nil => intro acc h; exact h
  | cons e es ih =>
      intro acc h
      rw [List.foldl_cons]
      apply ih
      unfold monitorStep
      split
      · exact List.mem_append_left _ h
      · exact h

theorem monitor_absent_pres {now : ℤ} {id : String} :
    ∀ (l : List (String × Conn)) (acc : ServerState × List OutMsg),
      (∀ c, (id, c) ∉ acc.1.connections) → (∀ u ∈ acc.1.users, u.id ≠ id) →
      (∀ c, (id, c) ∉ (l.foldl (monitorStep now) acc).1.connections) ∧
      (∀ u ∈ (l.foldl (monitorStep now) acc).1.users, u.id ≠ id) := by
  intro l
  induction l with
  | nil => intro acc h1 h2; exact ⟨h1, h2⟩
  | cons e es ih =>
      intro acc h1 h2
      rw [List.foldl_cons]
      apply ih
      · intro c hc
        unfold monitorStep at hc
        by_cases hstale : 300000 < now - e.2.lastActivity
        · rw [if_pos hstale] at hc
          simp only [List.mem_filter] at hc
          exact h1 c hc.1
        · rw [if_neg hstale] at hc
          exact h1 c hc
      · intro u hu
        unfold monitorStep at hu
        by_cases hstale : 300000 < now - e.2.lastActivity
        · rw [if_pos hstale] at hu
          simp only [List.mem_filter] at hu
          exact h2 u hu.1
        · rw [if_neg hstale] at hu
          exact h2 u hu

theorem monitor_evicts {now : ℤ} {id : String} {c : Conn} :
    ∀ (l : List (String × Conn)) (acc : ServerState × List OutMsg),
      (id, c) ∈ l → 300000 < now - c.lastActivity →
      (∀ c2, (id, c2) ∉ (l.foldl (monitorStep now) acc).1.connections) ∧
      (∀ u ∈ (l.foldl (monitorStep now) acc).1.users, u.id ≠ id) ∧
      OutMsg.disconnectConn id ∈ (l.foldl (monitorStep now) acc).2 ∧
      (∃ us, OutMsg.nearbyUsersAll us ∈ (l.foldl (monitorStep now) acc).2) := by
  intro l
  induction l with
  | nil => intro acc h _; simp at h
  | cons e es ih =>
      intro acc hmem hstale
      rcases List.mem_cons.mp hmem with heq | htail
      · rw [List.foldl_cons]
        have hcond : 300000 < now - e.2.lastActivity := by
          rw [← heq]; exact hstale
        have hstep : monitorStep now acc e =
            ({ acc.1 with
                connections := acc.1.connections.filter (fun p => p.1 != e.1),
                users := acc.1.users.filter (fun u => u.id != e.1) },
             acc.2 ++ [OutMsg.disconnectConn e.1,
               OutMsg.nearbyUsersAll (getValidUsers
                 (acc.1.users.filter (fun u => u.id != e.1)))]) := by
          unfold monitorStep
          rw [if_pos hcond]
        have hid : e.1 = id := by rw [← heq]
        have habs := @monitor_absent_pres now id es (monitorStep now acc e)
          (by
            intro c2 hc2
            rw [hstep] at hc2
            simp only [List.mem_filter] at hc2
            have := hc2.2
            rw [hid] at this
            simp at this)
          (by
            intro u hu
            rw [hstep] at hu
            simp only [List.mem_filter] at hu
            have := hu.2
            rw [hid] at this
            simpa using this)
        refine ⟨habs.1, habs.2, ?_, ?_⟩
        · apply monitor_out_mono
          rw [hstep, hid]
          simp
        · refine ⟨getValidUsers (acc.1.users.filter (fun u => u.id != e.1)), ?_⟩
          apply monitor_out_mono
          rw [hstep]
          simp
      · rw [List.foldl_cons]
        exact ih (monitorStep now acc e) htail hstale

theorem monitor_keeps_fresh {now : ℤ} {id : String} {c : Conn} :
    ∀ (l : List (String × Conn)) (acc : ServerState × List OutMsg),
      (id, c) ∈ acc.1.connections →
      (∀ p ∈ l, p.1 = id → now - p.2.lastActivity ≤ 300000) →
      (id, c) ∈ (l.foldl (monitorStep now) acc).1.connections := by
  intro l
  induction l with
  | nil => intro acc h _; exact h
  | cons e es ih =>
      intro acc hmem hfresh
      rw [List.foldl_cons]
      apply ih
      · unfold monitorStep
        by_cases hstale : 300000 < now - e.2.lastActivity
        · rw [if_pos hstale]
          simp only [List.mem_filter]
          refine ⟨hmem, ?_⟩
          simp only [bne_iff_ne, ne_eq]
          intro hEq
          have hle := hfresh e (List.mem_cons_self e es) hEq.symm
          omega
        · rw [if_neg hstale]
          exact hmem
      · intro p hp hpid
        exact hfresh p (List.mem_cons_of_mem _ hp) hpid

/-- C6: after one tick of the liveness monitor, every tracked connection
whose `lastActivity` is more than 300000 ms before `now` is terminated
(`disconnectConn` emitted), its connection entry and user record are
removed — so it is absent from the `getValidUsers` snapshot — and a
snapshot rebroadcast was emitted; every connection entry within the
threshold (in particular one refreshed just before the tick) survives. -/
theorem monitorTick_evicts_stale_keeps_fresh (s : ServerState) (now : ℤ) :
    (∀ id c, (id, c) ∈ s.connections → 300000 < now - c.lastActivity →
       (∀ c2, (id, c2) ∉ (monitorTick now s).1.connections) ∧
       (∀ u ∈ (monitorTick now s).1.users, u.id ≠ id) ∧
       (∀ u ∈ getValidUsers (monitorTick now s).1.users, u.id ≠ id) ∧
       OutMsg.disconnectConn id ∈ (monitorTick now s).2 ∧
       (∃ us, OutMsg.nearbyUsersAll us ∈ (monitorTick now s).2)) ∧
    (∀ id c, (id, c) ∈ s.connections →
       (∀ p ∈ s.connections, p.1 = id → now - p.2.lastActivity ≤ 300000) →
       (id, c) ∈ (monitorTick now s).1.connections) := by
  constructor
  · intro id c hmem hstale
    obtain ⟨h1, h2, h3, h4⟩ := monitor_evicts s.connections (s, []) hmem hstale
    exact ⟨h1, h2, fun u hu => h2 u (List.mem_of_mem_filter hu), h3, h4⟩
  · intro id c hmem hfresh
    exact monitor_keeps_fresh s.connections (s, []) hmem hfresh

/-- State for the monitor-tick scenario: connection `"A"` stale
(`lastActivity` 0) and `"B"` fresh (`lastActivity` 350000) at tick time
400000, each with a snapshot-visible user record. -/
def exC6State : ServerState :=
  ⟨[("A", ⟨"ip", 0, 0⟩), ("B", ⟨"ip", 0, 350000⟩)],
   [⟨"A", JSVal.num 1, JSVal.num 1, JSVal.bool true, JSVal.str "a",
      JSVal.str "user", JSVal.str "i"⟩,
    ⟨"B", JSVal.num 2, JSVal.num 2, JSVal.bool true, JSVal.str "b",
      JSVal.str "user", JSVal.str "i"⟩], []⟩

/-- C6 (witness): at `now = 400000` the stale connection `"A"` is
disconnected while the fresh entry `"B"` survives the tick. -/
theorem monitorTick_witness :
    OutMsg.disconnectConn "A" ∈ (monitorTick 400000 exC6State).2 ∧
    ("B", (⟨"ip", 0, 350000⟩ : Conn)) ∈ (monitorTick 400000 exC6State).1.connections :=
  ⟨((monitorTick_evicts_stale_keeps_fresh exC6State 400000).1 "A" ⟨"ip", 0, 0⟩
      (by decide) (by decide)).2.2.2.1,
   (monitorTick_evicts_stale_keeps_fresh exC6State 400000).2 "B" ⟨"ip", 0, 350000⟩
      (by decide) (by decide)⟩
